import Mathlib

/-!
Smart Mirror controller (`src/main.cpp`).

A shallow embedding of the polling loop of the Smart Mirror firmware.

* The program state is the record `Mirror`: the global `mirrorAwake`, the
  NeoPixel strip (pixel buffer and the colours last latched by `show()`), the
  OLED display (text buffer and the text last pushed by `display()`), and the
  function-static `lastUploadTime` of `loop`.
* Everything the program reads from its peripherals in one iteration
  (`analogRead`, `recognize`, `millis`, `esp_camera_fb_get`, `http.POST`) is
  an explicit input, `LoopInput`.
* Everything it sends to the outside (serial lines, delays, camera and HTTP
  calls) is returned as a list of `Event`s, in program order.
-/

namespace SmartMirror

/-! ## Peripherals -/

/-- Number of pixels of the strip, from `Adafruit_NeoPixel strip(16, ledPin, ...)`;
this is what `strip.numPixels()` returns. -/
abbrev numPixels : Nat := 16

/-- Packed colour of `strip.Color(r, g, b)`: the three `uint8_t` channels packed
as `(r << 16) | (g << 8) | b`. -/
def Color (r g b : Nat) : Nat :=
  ((r % 256) <<< 16) ||| ((g % 256) <<< 8) ||| (b % 256)

/-- The LED strip: `pixels` is the pixel buffer written by `setPixelColor`,
`shown` is what the LEDs display, i.e. the buffer as of the last `show()`. -/
@[ext]
structure Strip where
  pixels : Fin numPixels → Nat
  shown : Fin numPixels → Nat

/-- Effect of `strip.setPixelColor(n, c)`: writes pixel `n` when `n` is in
range and does nothing otherwise. -/
def Strip.setPixelColor (st : Strip) (n : Nat) (c : Nat) : Strip :=
  if h : n < numPixels then
    { st with pixels := Function.update st.pixels ⟨n, h⟩ c }
  else st

/-- Effect of `strip.show()`: the pixel buffer is latched to the LEDs. -/
def Strip.show (st : Strip) : Strip :=
  { st with shown := st.pixels }

/-- The loop `for (int i = 0; i < strip.numPixels(); i++) strip.setPixelColor(i, c);`
that occurs four times in `main.cpp`. -/
def Strip.setAll (st : Strip) (c : Nat) : Strip :=
  (List.range numPixels).foldl (fun acc i => acc.setPixelColor i c) st

/-- The OLED display: `buffer` holds the lines printed since the last
`clearDisplay()`, `screen` the lines pushed by the last `display()`. The text
size, colour and cursor are the same constants at every use and are not
tracked. -/
structure Display where
  buffer : List String
  screen : List String
deriving DecidableEq, Repr

/-- A frame returned by `esp_camera_fb_get()`: the fields `buf` and `len` of
`camera_fb_t` that the program uses. -/
structure Frame where
  buf : List Nat
  len : Nat
deriving DecidableEq, Repr

/-- Calls to the outside world, in program order. -/
inductive Event where
  | serialPrint (s : String)
  | serialPrintln (s : String)
  | delay (ms : Nat)
  | cameraFbGet
  | cameraFbReturn
  | httpBegin (url : String)
  | httpAddHeader (name value : String)
  | httpPOST (payload : List Nat) (size : Nat)
  | httpEnd
deriving DecidableEq, Repr

/-- An HTTP request is sent by `http.POST` only. -/
def Event.isHttpRequest : Event → Bool
  | .httpPOST _ _ => true
  | _ => false

/-- Any use of the HTTP client. -/
def Event.isHttp : Event → Bool
  | .httpBegin _ => true
  | .httpAddHeader _ _ => true
  | .httpPOST _ _ => true
  | .httpEnd => true
  | _ => false

/-! ## Program state -/

/-- The mutable state of the program. -/
@[ext]
structure Mirror where
  mirrorAwake : Bool
  strip : Strip
  display : Display
  lastUploadTime : Nat

/-- The constant `dropboxAccessToken`. -/
def dropboxAccessToken : String := "your_DROPBOX_ACCESS_TOKEN"

/-! ## The 32-bit millisecond counter -/

/-- Modulus of `unsigned long` on the ESP32. -/
abbrev ulongMod : Nat := 2 ^ 32

/-- The value of `millis()` after `t` milliseconds of uptime. -/
def millis (t : Nat) : Nat := t % ulongMod

/-- Subtraction `a - b` of two `unsigned long` values. -/
def wrapSub (a b : Nat) : Nat := (a % ulongMod + (ulongMod - b % ulongMod)) % ulongMod

/-- The test `millis() - lastUploadTime > 60000` of `loop`, with `now` the
value returned by `millis()`. -/
def uploadDue (now lastUploadTime : Nat) : Bool :=
  decide (60000 < wrapSub now lastUploadTime)

/-! ## The functions of `main.cpp` -/

/-- The function `displayMessage`. -/
def displayMessage (message : String) (d : Display) : Display :=
  let d1 : Display := { d with buffer := [] }
  let d2 : Display := { d1 with buffer := d1.buffer ++ [message] }
  { d2 with screen := d2.buffer }

/-- The function `captureAndUploadPhoto`. `fb` is the result of
`esp_camera_fb_get()` (`none` for a null pointer), `httpResponseCode` the value
returned by `http.POST`, and `errorToString` the library function
`http.errorToString`. It changes no program state. -/
def captureAndUploadPhoto (errorToString : Int → String) (fb : Option Frame)
    (httpResponseCode : Int) : List Event :=
  match fb with
  | none => [Event.cameraFbGet, Event.serialPrintln "Camera capture failed"]
  | some f =>
    [Event.cameraFbGet,
     Event.serialPrintln "Photo captured, uploading to Dropbox...",
     Event.httpBegin "https://content.dropboxapi.com/2/files/upload",
     Event.httpAddHeader "Authorization" ("Bearer " ++ dropboxAccessToken),
     Event.httpAddHeader "Content-Type" "application/octet-stream",
     Event.httpAddHeader "Dropbox-API-Arg"
       "\x7b\"path\": \"/SmartMirror/photo.jpg\", \"mode\": \"overwrite\", \"autorename\": true\x7d",
     Event.httpPOST f.buf f.len]
    ++ (if 0 < httpResponseCode then
          [Event.serialPrintln "Photo uploaded successfully"]
        else
          [Event.serialPrintln ("Error uploading photo: " ++ errorToString httpResponseCode)])
    ++ [Event.httpEnd, Event.cameraFbReturn]

/-- The function `handleLightSensor`, with `ldrValue` the result of
`analogRead(ldrPin)`. -/
def handleLightSensor (ldrValue : Int) (s : Mirror) : Mirror × List Event :=
  let ev := [Event.serialPrint "LDR Value: ", Event.serialPrintln (toString ldrValue)]
  if ldrValue < 720 ∧ s.mirrorAwake = true then
    ({ s with strip := (s.strip.setAll (Color 255 255 255)).show }, ev)
  else
    ({ s with strip := (s.strip.setAll 0).show }, ev)

/-- The function `handleVoiceCommand`, with `command` the result of
`voiceRecognition.recognize()`. -/
def handleVoiceCommand (command : Int) (s : Mirror) : Mirror × List Event :=
  if command = 1 then
    ({ s with
        mirrorAwake := true
        display := displayMessage "Mirror is awake" s.display
        strip := (s.strip.setAll (Color 0 255 0)).show },
     [Event.serialPrintln "Voice command received: Wake up", Event.delay 2000])
  else if command = 2 then
    ({ s with
        mirrorAwake := false
        display := displayMessage "Mirror is sleeping" s.display
        strip := (s.strip.setAll 0).show },
     [Event.serialPrintln "Voice command received: Sleep"])
  else (s, [])

/-- What one iteration of `loop` reads from the peripherals. `now` and `after`
are the uptime in milliseconds at the two calls of `millis()`: the one in the
interval test and the one assigned to `lastUploadTime`. -/
structure LoopInput where
  ldrValue : Int
  command : Int
  now : Nat
  fb : Option Frame
  httpResponseCode : Int
  after : Nat
deriving DecidableEq, Repr

/-- The function `loop`: one iteration. -/
def loop (errorToString : Int → String) (inp : LoopInput) (s : Mirror) :
    Mirror × List Event :=
  let r1 := handleLightSensor inp.ldrValue s
  let r2 := handleVoiceCommand inp.command r1.1
  if r2.1.mirrorAwake = true then
    if uploadDue (millis inp.now) r2.1.lastUploadTime = true then
      ({ r2.1 with lastUploadTime := millis inp.after },
       r1.2 ++ r2.2 ++ captureAndUploadPhoto errorToString inp.fb inp.httpResponseCode
         ++ [Event.delay 500])
    else (r2.1, r1.2 ++ r2.2 ++ [Event.delay 500])
  else (r2.1, r1.2 ++ r2.2 ++ [Event.delay 500])

/-- The state of the globals before `setup` runs: `mirrorAwake = false`, a
freshly constructed strip (zeroed pixel buffer), an empty display and
`lastUploadTime = 0`. -/
def initial : Mirror :=
  { mirrorAwake := false
    strip := { pixels := fun _ => 0, shown := fun _ => 0 }
    display := { buffer := [], screen := [] }
    lastUploadTime := 0 }

/-- The function `setup`. `displayOk` is the result of `display.begin`,
`wifiPolls` the number of times `WiFi.status()` is found not connected before
it is (`none` when it never connects), `cameraOk` whether `esp_camera_init`
returns `ESP_OK`. The result is `none` when `setup` never returns (one of the
two `while (1);` is reached, or the WiFi never connects); otherwise it is the
state handed to `loop` and the serial lines and delays of `setup`. -/
def setup (displayOk : Bool) (wifiPolls : Option Nat) (cameraOk : Bool) :
    Option (Mirror × List Event) :=
  if displayOk = false then none
  else
    let s1 : Mirror := { initial with display := displayMessage "Initializing..." initial.display }
    let s2 : Mirror := { s1 with strip := s1.strip.show }
    match wifiPolls with
    | none => none
    | some n =>
      let s3 : Mirror := { s2 with display := displayMessage "WiFi connected" s2.display }
      if cameraOk = false then none
      else
        some ({ s3 with display := displayMessage "Say 'wake up' or 'sleep'" s3.display },
          [Event.serialPrintln "Connecting to WiFi..."]
          ++ (List.replicate n [Event.delay 500, Event.serialPrint "."]).flatten
          ++ [Event.serialPrintln "WiFi connected",
              Event.serialPrintln "Smart Mirror is ready!"])

/-- A run of `loop` over the inputs of successive iterations: the final state
and all events. -/
def run (errorToString : Int → String) : Mirror → List LoopInput → Mirror × List Event
  | s, [] => (s, [])
  | s, inp :: rest =>
    let r := loop errorToString inp s
    let r2 := run errorToString r.1 rest
    (r2.1, r.2 ++ r2.2)

/-- The uptimes at which `loop` read the clock for an interval test that
passed, i.e. at which it invoked `captureAndUploadPhoto` (whose first action is
`esp_camera_fb_get`), over a run. -/
def captureTriggers (errorToString : Int → String) : Mirror → List LoopInput → List Nat
  | _, [] => []
  | s, inp :: rest =>
    let r := loop errorToString inp s
    (if Event.cameraFbGet ∈ r.2 then [inp.now] else [])
      ++ captureTriggers errorToString r.1 rest

/-- The clock readings of a run, in program order. -/
def clockReadings : List LoopInput → List Nat
  | [] => []
  | inp :: rest => inp.now :: inp.after :: clockReadings rest

/-! ## Basic facts -/

theorem setAll_pixels (st : Strip) (c : Nat) (i : Fin numPixels) :
    (st.setAll c).pixels i = c := by
  fin_cases i <;> rfl

theorem setAll_shown (st : Strip) (c : Nat) : (st.setAll c).shown = st.shown := by
  rfl

theorem color_green : Color 0 255 0 = 0x00FF00 := by decide

theorem color_white : Color 255 255 255 = 0xFFFFFF := by decide

theorem setAll_show_pixels (st : Strip) (c : Nat) (i : Fin numPixels) :
    (st.setAll c).show.pixels i = c := setAll_pixels st c i

theorem setAll_show_shown (st : Strip) (c : Nat) (i : Fin numPixels) :
    (st.setAll c).show.shown i = c := setAll_pixels st c i

theorem setAll_show_idem (st : Strip) (c : Nat) :
    (((st.setAll c).show).setAll c).show = (st.setAll c).show := by
  ext i
  · rw [setAll_show_pixels, setAll_show_pixels]
  · rw [setAll_show_shown, setAll_show_shown]

theorem displayMessage_idem (m : String) (d : Display) :
    displayMessage m (displayMessage m d) = displayMessage m d := rfl

/-! ## The light sensor -/

/-- C1: for every reading and every value of the awake flag, if the reading is
above 720 or the mirror is not awake, `handleLightSensor` sets every pixel of
the 16-pixel strip to 0 and shows it (the LEDs display 0 everywhere). -/
theorem handleLightSensor_off (ldrValue : Int) (s : Mirror)
    (h : 720 < ldrValue ∨ s.mirrorAwake = false) :
    (∀ i : Fin 16, (handleLightSensor ldrValue s).1.strip.pixels i = 0) ∧
    (∀ i : Fin 16, (handleLightSensor ldrValue s).1.strip.shown i = 0) := by
  have hc : ¬ (ldrValue < 720 ∧ s.mirrorAwake = true) := by
    rintro ⟨h1, h2⟩
    rcases h with h | h
    · omega
    · rw [h2] at h; exact Bool.noConfusion h
  unfold handleLightSensor
  simp only [hc, if_false]
  exact ⟨fun i => setAll_show_pixels _ _ i, fun i => setAll_show_shown _ _ i⟩

theorem handleLightSensor_off_witness :
    (720 < (1023 : Int) ∨ ({ initial with mirrorAwake := true } : Mirror).mirrorAwake = false) ∧
    (∀ i : Fin 16,
      (handleLightSensor 1023 { initial with mirrorAwake := true }).1.strip.pixels i = 0) ∧
    (∀ i : Fin 16,
      (handleLightSensor 1023 { initial with mirrorAwake := true }).1.strip.shown i = 0) :=
  ⟨Or.inl (by decide), handleLightSensor_off 1023 _ (Or.inl (by decide))⟩

/-- C7: for every reading below 720 taken while the mirror is awake,
`handleLightSensor` sets every pixel to bright white `Color 255 255 255`
(and shows it); the strip after the call is uniformly white exactly when
`ldrValue < 720` and `mirrorAwake`, and uniformly off in every other case; a
reading of exactly 720 gives off. -/
theorem handleLightSensor_white_iff (ldrValue : Int) (s : Mirror) :
    (ldrValue < 720 → s.mirrorAwake = true →
      (∀ i : Fin 16, (handleLightSensor ldrValue s).1.strip.pixels i = Color 255 255 255) ∧
      (∀ i : Fin 16, (handleLightSensor ldrValue s).1.strip.shown i = Color 255 255 255)) ∧
    ((∀ i : Fin 16, (handleLightSensor ldrValue s).1.strip.pixels i = Color 255 255 255) ↔
      (ldrValue < 720 ∧ s.mirrorAwake = true)) ∧
    (¬ (ldrValue < 720 ∧ s.mirrorAwake = true) →
      (∀ i : Fin 16, (handleLightSensor ldrValue s).1.strip.pixels i = 0) ∧
      (∀ i : Fin 16, (handleLightSensor ldrValue s).1.strip.shown i = 0)) ∧
    (ldrValue = 720 → ∀ i : Fin 16, (handleLightSensor ldrValue s).1.strip.pixels i = 0) := by
  have hw : ldrValue < 720 ∧ s.mirrorAwake = true →
      (∀ i : Fin 16, (handleLightSensor ldrValue s).1.strip.pixels i = Color 255 255 255) ∧
      (∀ i : Fin 16, (handleLightSensor ldrValue s).1.strip.shown i = Color 255 255 255) := by
    intro hc
    unfold handleLightSensor
    simp only [hc, and_self, if_true]
    exact ⟨fun i => setAll_show_pixels _ _ i, fun i => setAll_show_shown _ _ i⟩
  have ho : ¬ (ldrValue < 720 ∧ s.mirrorAwake = true) →
      (∀ i : Fin 16, (handleLightSensor ldrValue s).1.strip.pixels i = 0) ∧
      (∀ i : Fin 16, (handleLightSensor ldrValue s).1.strip.shown i = 0) := by
    intro hc
    unfold handleLightSensor
    simp only [hc, if_false]
    exact ⟨fun i => setAll_show_pixels _ _ i, fun i => setAll_show_shown _ _ i⟩
  refine ⟨fun h1 h2 => hw ⟨h1, h2⟩, ⟨fun hall => ?_, fun hc => (hw hc).1⟩, ho, fun h720 => ?_⟩
  · by_contra hc
    have h0 := (ho hc).1 0
    rw [hall 0, color_white] at h0
    exact absurd h0 (by decide)
  · exact (ho (fun hc => by omega)).1

theorem handleLightSensor_white_iff_witness :
    ((100 : Int) < 720 → ({ initial with mirrorAwake := true } : Mirror).mirrorAwake = true →
      (∀ i : Fin 16, (handleLightSensor 100 { initial with mirrorAwake := true }).1.strip.pixels i
        = Color 255 255 255) ∧
      (∀ i : Fin 16, (handleLightSensor 100 { initial with mirrorAwake := true }).1.strip.shown i
        = Color 255 255 255)) ∧
    (100 : Int) < 720 ∧ ({ initial with mirrorAwake := true } : Mirror).mirrorAwake = true :=
  ⟨(handleLightSensor_white_iff 100 { initial with mirrorAwake := true }).1, by decide, rfl⟩

/-! ## The voice command -/

theorem sleep_command_dark (s : Mirror) :
    (∀ i : Fin 16, (handleVoiceCommand 2 s).1.strip.pixels i = 0) ∧
    (∀ i : Fin 16, (handleVoiceCommand 2 s).1.strip.shown i = 0) :=
  ⟨fun i => setAll_show_pixels _ _ i, fun i => setAll_show_shown _ _ i⟩

/-- C4: `handleVoiceCommand` sets the awake flag from the command alone: for
every prior state, command 1 leaves `mirrorAwake` true, all pixels green
`Color 0 255 0` (also on the LEDs) and the display reading "Mirror is awake";
command 2 leaves `mirrorAwake` false, all pixels off and the display reading
"Mirror is sleeping"; and applying a command twice gives the same state as
applying it once. -/
theorem handleVoiceCommand_sets_state (s : Mirror) :
    ((handleVoiceCommand 1 s).1.mirrorAwake = true ∧
      (∀ i : Fin 16, (handleVoiceCommand 1 s).1.strip.pixels i = Color 0 255 0) ∧
      (∀ i : Fin 16, (handleVoiceCommand 1 s).1.strip.shown i = Color 0 255 0) ∧
      (handleVoiceCommand 1 s).1.display.screen = ["Mirror is awake"]) ∧
    ((handleVoiceCommand 2 s).1.mirrorAwake = false ∧
      (∀ i : Fin 16, (handleVoiceCommand 2 s).1.strip.pixels i = 0) ∧
      (∀ i : Fin 16, (handleVoiceCommand 2 s).1.strip.shown i = 0) ∧
      (handleVoiceCommand 2 s).1.display.screen = ["Mirror is sleeping"]) ∧
    (∀ command : Int,
      (handleVoiceCommand command (handleVoiceCommand command s).1).1 =
        (handleVoiceCommand command s).1) ∧
    Color 0 255 0 = 0x00FF00 := by
  refine ⟨⟨rfl, fun i => setAll_show_pixels _ _ i, fun i => setAll_show_shown _ _ i, rfl⟩,
    ⟨rfl, fun i => setAll_show_pixels _ _ i, fun i => setAll_show_shown _ _ i, rfl⟩,
    fun command => ?_, color_green⟩
  by_cases h1 : command = 1
  · subst h1
    simp only [handleVoiceCommand, if_true]
    rw [setAll_show_idem, displayMessage_idem]
  · by_cases h2 : command = 2
    · subst h2
      simp only [handleVoiceCommand, if_true, if_false, h1]
      rw [setAll_show_idem, displayMessage_idem]
    · simp only [handleVoiceCommand, if_false, h1, h2]

/-- C8: for every value of the recognizer other than 1 and 2,
`handleVoiceCommand` leaves the awake flag, the strip (buffer and LEDs) and the
display unchanged, indeed the whole state, and emits nothing; and
`handleLightSensor` never changes the awake flag or `lastUploadTime` (nor the
display), for any reading. -/
theorem handlers_frame (command ldrValue : Int) (s : Mirror) :
    (command ≠ 1 → command ≠ 2 →
      (handleVoiceCommand command s).1.mirrorAwake = s.mirrorAwake ∧
      (handleVoiceCommand command s).1.strip = s.strip ∧
      (handleVoiceCommand command s).1.display = s.display ∧
      handleVoiceCommand command s = (s, [])) ∧
    (handleLightSensor ldrValue s).1.mirrorAwake = s.mirrorAwake ∧
    (handleLightSensor ldrValue s).1.lastUploadTime = s.lastUploadTime ∧
    (handleLightSensor ldrValue s).1.display = s.display := by
  refine ⟨fun h1 h2 => ?_, ?_⟩
  · have : handleVoiceCommand command s = (s, []) := by
      simp only [handleVoiceCommand, if_false, h1, h2]
    rw [this]
    exact ⟨rfl, rfl, rfl, rfl⟩
  · unfold handleLightSensor
    split <;> exact ⟨rfl, rfl, rfl⟩

theorem handlers_frame_witness :
    (0 : Int) ≠ 1 ∧ (0 : Int) ≠ 2 ∧
    handleVoiceCommand 0 { initial with mirrorAwake := true } =
      ({ initial with mirrorAwake := true }, []) :=
  ⟨by decide, by decide,
    ((handlers_frame 0 0 { initial with mirrorAwake := true }).1 (by decide) (by decide)).2.2.2⟩

/-! ## Capture and upload -/

theorem error_line_ne (msg : String) :
    "Error uploading photo: " ++ msg ≠ "Photo uploaded successfully" ∧
    "Error uploading photo: " ++ msg ≠ "Photo captured, uploading to Dropbox..." := by
  constructor <;>
  · intro h
    have h2 := congrArg String.data h
    rw [String.data_append] at h2
    have h3 : some 'E' = some 'P' := congrArg List.head? h2
    exact absurd h3 (by decide)

/-- C10: after a successful capture, `captureAndUploadPhoto` prints
"Photo uploaded successfully" exactly when the value returned by `http.POST`
is greater than 0 and prints an "Error uploading photo: ..." line exactly when
it is `<= 0` (and then the line built from `errorToString` of that value);
hence every HTTP status code, 4xx and 5xx included, 401 among them, is reported
as a successful upload; and for every returned value the HTTP connection is
ended exactly once and the frame buffer is returned exactly once. -/
theorem captureAndUploadPhoto_report (errorToString : Int → String) (f : Frame)
    (httpResponseCode : Int) :
    (Event.serialPrintln "Photo uploaded successfully" ∈
        captureAndUploadPhoto errorToString (some f) httpResponseCode ↔ 0 < httpResponseCode) ∧
    ((∃ msg, Event.serialPrintln ("Error uploading photo: " ++ msg) ∈
        captureAndUploadPhoto errorToString (some f) httpResponseCode) ↔ httpResponseCode ≤ 0) ∧
    (httpResponseCode ≤ 0 →
      Event.serialPrintln ("Error uploading photo: " ++ errorToString httpResponseCode) ∈
        captureAndUploadPhoto errorToString (some f) httpResponseCode) ∧
    (400 ≤ httpResponseCode → httpResponseCode ≤ 599 →
      Event.serialPrintln "Photo uploaded successfully" ∈
        captureAndUploadPhoto errorToString (some f) httpResponseCode) ∧
    Event.serialPrintln "Photo uploaded successfully" ∈
      captureAndUploadPhoto errorToString (some f) 401 ∧
    (captureAndUploadPhoto errorToString (some f) httpResponseCode).count Event.httpEnd = 1 ∧
    (captureAndUploadPhoto errorToString (some f) httpResponseCode).count
      Event.cameraFbReturn = 1 := by
  have hpos : ∀ code : Int, 0 < code →
      Event.serialPrintln "Photo uploaded successfully" ∈
        captureAndUploadPhoto errorToString (some f) code := by
    intro code hc
    simp [captureAndUploadPhoto, hc]
  refine ⟨⟨fun hmem => ?_, hpos _⟩, ⟨fun hmem => ?_, fun hc => ?_⟩, fun hc => ?_,
    fun h4 _ => hpos _ (by omega), hpos 401 (by decide), ?_, ?_⟩
  · by_contra hc
    simp only [captureAndUploadPhoto, hc, if_false, List.mem_append, List.mem_cons,
      List.mem_singleton, Event.serialPrintln.injEq, List.not_mem_nil, or_false] at hmem
    rcases hmem with ((h | h | h | h | h | h | h) | h) | h | h
    all_goals first
      | exact Event.noConfusion h
      | exact absurd h (by decide)
      | exact (error_line_ne _).1 h.symm
  · by_contra hc
    have hc2 : 0 < httpResponseCode := by omega
    obtain ⟨msg, hmem⟩ := hmem
    simp only [captureAndUploadPhoto, hc2, if_true, List.mem_append, List.mem_cons,
      List.mem_singleton, Event.serialPrintln.injEq, List.not_mem_nil, or_false] at hmem
    rcases hmem with ((h | h | h | h | h | h | h) | h) | h | h
    all_goals first
      | exact Event.noConfusion h
      | exact (error_line_ne _).1 h
      | exact (error_line_ne _).2 h
  · exact ⟨errorToString httpResponseCode, by
      simp [captureAndUploadPhoto, show ¬ (0 < httpResponseCode) by omega]⟩
  · simp [captureAndUploadPhoto, show ¬ (0 < httpResponseCode) by omega]
  · by_cases hc : 0 < httpResponseCode <;> simp [captureAndUploadPhoto, hc, List.count_cons]
  · by_cases hc : 0 < httpResponseCode <;> simp [captureAndUploadPhoto, hc, List.count_cons]

theorem captureAndUploadPhoto_report_witness :
    ((400 : Int) ≤ 503 → (503 : Int) ≤ 599 →
      Event.serialPrintln "Photo uploaded successfully" ∈
        captureAndUploadPhoto (fun _ => "") (some ⟨[255, 216], 2⟩) 503) ∧
    (400 : Int) ≤ 503 ∧ (503 : Int) ≤ 599 :=
  ⟨(captureAndUploadPhoto_report (fun _ => "") ⟨[255, 216], 2⟩ 503).2.2.2.1,
    by decide, by decide⟩

/-! ## One iteration of `loop` -/

/-- The state after the two handlers of an iteration, before the upload test. -/
theorem handlers_lastUploadTime (inp : LoopInput) (s : Mirror) :
    (handleVoiceCommand inp.command (handleLightSensor inp.ldrValue s).1).1.lastUploadTime =
      s.lastUploadTime := by
  unfold handleVoiceCommand handleLightSensor
  split <;> split <;> (try split) <;> rfl

theorem handleLightSensor_events (ldrValue : Int) (s : Mirror) :
    (handleLightSensor ldrValue s).2 =
      [Event.serialPrint "LDR Value: ", Event.serialPrintln (toString ldrValue)] := by
  unfold handleLightSensor
  split <;> rfl

theorem handleVoiceCommand_events (command : Int) (s : Mirror) :
    (handleVoiceCommand command s).2 =
      if command = 1 then
        [Event.serialPrintln "Voice command received: Wake up", Event.delay 2000]
      else if command = 2 then [Event.serialPrintln "Voice command received: Sleep"]
      else [] := by
  unfold handleVoiceCommand
  split
  · rfl
  · split <;> rfl

theorem handlers_no_capture (inp : LoopInput) (s : Mirror) (e : Event)
    (he : e ∈ (handleLightSensor inp.ldrValue s).2 ++
      (handleVoiceCommand inp.command (handleLightSensor inp.ldrValue s).1).2) :
    e ≠ Event.cameraFbGet ∧ e.isHttp = false := by
  rw [handleLightSensor_events, handleVoiceCommand_events, List.mem_append] at he
  rcases he with he | he
  · simp only [List.mem_cons, List.mem_singleton, List.not_mem_nil, or_false] at he
    rcases he with rfl | rfl <;> exact ⟨Event.noConfusion, rfl⟩
  · split at he
    · simp only [List.mem_cons, List.mem_singleton, List.not_mem_nil, or_false] at he
      rcases he with rfl | rfl <;> exact ⟨Event.noConfusion, rfl⟩
    · split at he
      · rw [List.mem_singleton] at he
        subst he
        exact ⟨Event.noConfusion, rfl⟩
      · exact absurd he (List.not_mem_nil _)

theorem capture_mem (errorToString : Int → String) (fb : Option Frame) (code : Int) :
    Event.cameraFbGet ∈ captureAndUploadPhoto errorToString fb code := by
  cases fb <;> simp [captureAndUploadPhoto]

/-- The two outcomes of an iteration. -/
theorem loop_eq (errorToString : Int → String) (inp : LoopInput) (s : Mirror) :
    loop errorToString inp s =
      if (handleVoiceCommand inp.command (handleLightSensor inp.ldrValue s).1).1.mirrorAwake = true ∧
          uploadDue (millis inp.now) s.lastUploadTime = true then
        ({ (handleVoiceCommand inp.command (handleLightSensor inp.ldrValue s).1).1 with
            lastUploadTime := millis inp.after },
         (handleLightSensor inp.ldrValue s).2 ++
           (handleVoiceCommand inp.command (handleLightSensor inp.ldrValue s).1).2 ++
           captureAndUploadPhoto errorToString inp.fb inp.httpResponseCode ++ [Event.delay 500])
      else
        ((handleVoiceCommand inp.command (handleLightSensor inp.ldrValue s).1).1,
         (handleLightSensor inp.ldrValue s).2 ++
           (handleVoiceCommand inp.command (handleLightSensor inp.ldrValue s).1).2 ++
           [Event.delay 500]) := by
  have hlt := handlers_lastUploadTime inp s
  unfold loop
  dsimp only
  rw [hlt]
  by_cases ha : (handleVoiceCommand inp.command
      (handleLightSensor inp.ldrValue s).1).1.mirrorAwake = true
  · by_cases hd : uploadDue (millis inp.now) s.lastUploadTime = true
    · rw [if_pos ha, if_pos hd, if_pos ⟨ha, hd⟩]
    · rw [if_pos ha, if_neg hd, if_neg (fun h => hd h.2)]
  · rw [if_neg ha, if_neg (fun h => ha h.1)]

theorem loop_capture_iff (errorToString : Int → String) (inp : LoopInput) (s : Mirror) :
    Event.cameraFbGet ∈ (loop errorToString inp s).2 ↔
      ((handleVoiceCommand inp.command (handleLightSensor inp.ldrValue s).1).1.mirrorAwake = true ∧
        uploadDue (millis inp.now) s.lastUploadTime = true) := by
  have hno : Event.cameraFbGet ∉ (handleLightSensor inp.ldrValue s).2 ++
      (handleVoiceCommand inp.command (handleLightSensor inp.ldrValue s).1).2 :=
    fun h => (handlers_no_capture inp s _ h).1 rfl
  rw [loop_eq]
  split
  · rename_i hc
    refine ⟨fun _ => hc, fun _ => ?_⟩
    exact List.mem_append_left _ (List.mem_append_right _ (capture_mem _ _ _))
  · rename_i hc
    refine ⟨fun h => ?_, fun h => absurd h hc⟩
    rcases List.mem_append.1 h with h | h
    · exact absurd h hno
    · exact Event.noConfusion (List.mem_singleton.1 h)

theorem loop_lastUploadTime (errorToString : Int → String) (inp : LoopInput) (s : Mirror) :
    (loop errorToString inp s).1.lastUploadTime =
      if Event.cameraFbGet ∈ (loop errorToString inp s).2 then millis inp.after
      else s.lastUploadTime := by
  by_cases hc : Event.cameraFbGet ∈ (loop errorToString inp s).2
  · rw [if_pos hc, loop_eq, if_pos ((loop_capture_iff _ _ _).1 hc)]
  · rw [if_neg hc, loop_eq, if_neg (mt (loop_capture_iff _ _ _).2 hc)]
    exact handlers_lastUploadTime inp s

theorem loop_no_capture_events (errorToString : Int → String) (inp : LoopInput) (s : Mirror)
    (h : Event.cameraFbGet ∉ (loop errorToString inp s).2) :
    ∀ e ∈ (loop errorToString inp s).2, e.isHttp = false := by
  intro e he
  rw [loop_eq, if_neg (mt (loop_capture_iff _ _ _).2 h)] at he
  rcases List.mem_append.1 he with he | he
  · exact (handlers_no_capture inp s e he).2
  · rw [List.mem_singleton] at he
    subst he; rfl

/-- The fields of the state other than `lastUploadTime` are those left by the
two handlers. -/
theorem loop_state (errorToString : Int → String) (inp : LoopInput) (s : Mirror) :
    (loop errorToString inp s).1.mirrorAwake =
      (handleVoiceCommand inp.command (handleLightSensor inp.ldrValue s).1).1.mirrorAwake ∧
    (loop errorToString inp s).1.strip =
      (handleVoiceCommand inp.command (handleLightSensor inp.ldrValue s).1).1.strip ∧
    (loop errorToString inp s).1.display =
      (handleVoiceCommand inp.command (handleLightSensor inp.ldrValue s).1).1.display := by
  rw [loop_eq]
  split <;> exact ⟨rfl, rfl, rfl⟩

theorem wrapSub_millis (a d : Nat) (hd : d < 2 ^ 32) :
    wrapSub (millis (a + d)) (millis a) = d := by
  unfold wrapSub millis ulongMod
  norm_num at hd ⊢
  omega

theorem millis_of_lt (a : Nat) (h : a < 2 ^ 32) : millis a = a := by
  unfold millis ulongMod
  exact Nat.mod_eq_of_lt h

theorem setup_state (displayOk : Bool) (wifiPolls : Option Nat) (cameraOk : Bool)
    (s0 : Mirror) (ev : List Event)
    (h : setup displayOk wifiPolls cameraOk = some (s0, ev)) :
    s0.mirrorAwake = false ∧ (∀ i : Fin 16, s0.strip.pixels i = 0) ∧
    (∀ i : Fin 16, s0.strip.shown i = 0) ∧ s0.lastUploadTime = 0 := by
  unfold setup at h
  cases displayOk
  · exact absurd h (by simp)
  · cases wifiPolls with
    | none => exact absurd h (by simp)
    | some n =>
      cases cameraOk
      · exact absurd h (by simp)
      · simp only [Bool.true_eq_false, if_false, Option.some.injEq, Prod.mk.injEq] at h
        obtain ⟨h1, -⟩ := h
        subst h1
        exact ⟨rfl, fun _ => rfl, fun _ => rfl, rfl⟩

theorem handlers_asleep (inp : LoopInput) (s : Mirror) (hs : s.mirrorAwake = false)
    (hc : inp.command ≠ 1) :
    (handleVoiceCommand inp.command (handleLightSensor inp.ldrValue s).1).1.mirrorAwake
      = false := by
  have h1 : (handleLightSensor inp.ldrValue s).1.mirrorAwake = false := by
    unfold handleLightSensor
    split <;> exact hs
  unfold handleVoiceCommand
  rw [if_neg hc]
  split
  · rfl
  · exact h1

theorem handlers_sleep_command (inp : LoopInput) (s : Mirror) (hc : inp.command = 2) :
    (handleVoiceCommand inp.command (handleLightSensor inp.ldrValue s).1).1.mirrorAwake
      = false := by
  unfold handleVoiceCommand
  rw [hc, if_neg (by decide), if_pos rfl]

theorem loop_asleep_events (errorToString : Int → String) (inp : LoopInput) (s : Mirror)
    (h : (handleVoiceCommand inp.command (handleLightSensor inp.ldrValue s).1).1.mirrorAwake
      = false) :
    ∀ e ∈ (loop errorToString inp s).2, e ≠ Event.cameraFbGet ∧ e.isHttp = false := by
  have hno : Event.cameraFbGet ∉ (loop errorToString inp s).2 := by
    rw [loop_capture_iff, h]
    exact fun hc => Bool.noConfusion hc.1
  intro e he
  exact ⟨fun heq => hno (heq ▸ he), loop_no_capture_events _ _ _ hno e he⟩

theorem run_asleep (errorToString : Int → String) :
    ∀ (inputs : List LoopInput) (s : Mirror), s.mirrorAwake = false →
      (∀ i ∈ inputs, i.command ≠ 1) →
      (run errorToString s inputs).1.mirrorAwake = false ∧
      ∀ e ∈ (run errorToString s inputs).2, e ≠ Event.cameraFbGet ∧ e.isHttp = false := by
  intro inputs
  induction inputs with
  | nil =>
    intro s hs _
    exact ⟨hs, fun e he => absurd he (List.not_mem_nil _)⟩
  | cons inp rest ih =>
    intro s hs hcmd
    have ha := handlers_asleep inp s hs (hcmd inp (List.mem_cons_self _ _))
    have hst : (loop errorToString inp s).1.mirrorAwake = false := by
      rw [(loop_state errorToString inp s).1]; exact ha
    have hrest := ih (loop errorToString inp s).1 hst
      (fun i hi => hcmd i (List.mem_cons_of_mem _ hi))
    refine ⟨hrest.1, fun e he => ?_⟩
    rcases List.mem_append.1 he with he | he
    · exact loop_asleep_events errorToString inp s ha e he
    · exact hrest.2 e he

/-! ## Captures happen only while awake -/

/-- C2: a photo is never captured or uploaded while the mirror is not awake. In
every iteration, a camera or HTTP call occurs only if `mirrorAwake` is true
after `handleVoiceCommand` has run in that iteration (which is also its value at
the end of the iteration); an iteration that receives the sleep command 2
performs no capture and no upload; and no capture or upload happens in a run
that starts from the state left by `setup` and has not yet received the wake
command 1. -/
theorem capture_only_when_awake (errorToString : Int → String) (s : Mirror)
    (inp : LoopInput) :
    ((∃ e ∈ (loop errorToString inp s).2, e = Event.cameraFbGet ∨ e.isHttp = true) →
      (handleVoiceCommand inp.command (handleLightSensor inp.ldrValue s).1).1.mirrorAwake = true ∧
      (loop errorToString inp s).1.mirrorAwake = true) ∧
    (inp.command = 2 →
      ∀ e ∈ (loop errorToString inp s).2, e ≠ Event.cameraFbGet ∧ e.isHttp = false) ∧
    (∀ (displayOk : Bool) (wifiPolls : Option Nat) (cameraOk : Bool) (s0 : Mirror)
        (ev : List Event) (inputs : List LoopInput),
      setup displayOk wifiPolls cameraOk = some (s0, ev) →
      (∀ i ∈ inputs, i.command ≠ 1) →
      ∀ e ∈ (run errorToString s0 inputs).2, e ≠ Event.cameraFbGet ∧ e.isHttp = false) := by
  refine ⟨fun hex => ?_, fun hc => loop_asleep_events _ _ _ (handlers_sleep_command inp s hc),
    fun d w c s0 ev inputs hsetup hcmd =>
      (run_asleep errorToString inputs s0 (setup_state d w c s0 ev hsetup).1 hcmd).2⟩
  have ha : (handleVoiceCommand inp.command
      (handleLightSensor inp.ldrValue s).1).1.mirrorAwake = true := by
    by_contra hna
    obtain ⟨e, he, hprop⟩ := hex
    have hfalse := loop_asleep_events errorToString inp s (by simpa using hna) e he
    rcases hprop with hprop | hprop
    · exact hfalse.1 hprop
    · rw [hfalse.2] at hprop; exact Bool.noConfusion hprop
  exact ⟨ha, by rw [(loop_state errorToString inp s).1]; exact ha⟩

theorem capture_only_when_awake_witness :
    (⟨100, 2, 200000, some ⟨[255, 216], 2⟩, 200, 200100⟩ : LoopInput).command = 2 ∧
    ∀ e ∈ (loop (fun _ => "") ⟨100, 2, 200000, some ⟨[255, 216], 2⟩, 200, 200100⟩
        { initial with mirrorAwake := true }).2,
      e ≠ Event.cameraFbGet ∧ e.isHttp = false :=
  ⟨rfl, (capture_only_when_awake (fun _ => "")
    { initial with mirrorAwake := true }
    ⟨100, 2, 200000, some ⟨[255, 216], 2⟩, 200, 200100⟩).2.1 rfl⟩

/-! ## The LEDs are dark while asleep -/

/-- C6: the state left by `setup` has `mirrorAwake = false` and all pixels off,
and at the end of every loop iteration reachable from it, for every sensor
reading and voice command of each iteration, if the mirror is not awake then
every pixel of the strip is off (in the buffer and on the LEDs); equivalently,
whenever some LED is lit at the end of an iteration, `mirrorAwake` is true. -/
theorem asleep_implies_dark (errorToString : Int → String) (displayOk : Bool)
    (wifiPolls : Option Nat) (cameraOk : Bool) (s0 : Mirror) (ev : List Event)
    (hsetup : setup displayOk wifiPolls cameraOk = some (s0, ev))
    (inputs : List LoopInput) (inp : LoopInput) :
    (s0.mirrorAwake = false ∧ ∀ i : Fin 16, s0.strip.pixels i = 0 ∧ s0.strip.shown i = 0) ∧
    ((loop errorToString inp (run errorToString s0 inputs).1).1.mirrorAwake = false →
      ∀ i : Fin 16,
        (loop errorToString inp (run errorToString s0 inputs).1).1.strip.pixels i = 0 ∧
        (loop errorToString inp (run errorToString s0 inputs).1).1.strip.shown i = 0) ∧
    ((∃ i : Fin 16,
        (loop errorToString inp (run errorToString s0 inputs).1).1.strip.pixels i ≠ 0 ∨
        (loop errorToString inp (run errorToString s0 inputs).1).1.strip.shown i ≠ 0) →
      (loop errorToString inp (run errorToString s0 inputs).1).1.mirrorAwake = true) := by
  have hs0 := setup_state displayOk wifiPolls cameraOk s0 ev hsetup
  have key : ∀ s : Mirror, (loop errorToString inp s).1.mirrorAwake = false →
      ∀ i : Fin 16, (loop errorToString inp s).1.strip.pixels i = 0 ∧
        (loop errorToString inp s).1.strip.shown i = 0 := by
    intro s hoff i
    obtain ⟨hA, hS, -⟩ := loop_state errorToString inp s
    rw [hA] at hoff
    rw [hS]
    by_cases h1 : inp.command = 1
    · rw [h1] at hoff
      exact absurd hoff (by simp [handleVoiceCommand])
    · by_cases h2 : inp.command = 2
      · rw [h2]
        exact ⟨((sleep_command_dark _).1 i), ((sleep_command_dark _).2 i)⟩
      · have hid : handleVoiceCommand inp.command (handleLightSensor inp.ldrValue s).1 =
            ((handleLightSensor inp.ldrValue s).1, []) := by
          simp only [handleVoiceCommand, if_false, h1, h2]
        rw [hid] at hoff ⊢
        have hs : s.mirrorAwake = false := by
          have : (handleLightSensor inp.ldrValue s).1.mirrorAwake = s.mirrorAwake := by
            unfold handleLightSensor
            split <;> rfl
          rw [← this]; exact hoff
        have hc : ¬ (inp.ldrValue < 720 ∧ s.mirrorAwake = true) := by
          rw [hs]; exact fun h => Bool.noConfusion h.2
        unfold handleLightSensor
        simp only [hc, if_false]
        exact ⟨setAll_show_pixels _ _ i, setAll_show_shown _ _ i⟩
  refine ⟨⟨hs0.1, fun i => ⟨hs0.2.1 i, hs0.2.2.1 i⟩⟩, key _, fun hex => ?_⟩
  by_contra hna
  obtain ⟨i, hi⟩ := hex
  have hk := key (run errorToString s0 inputs).1 (by simpa using hna) i
  rcases hi with hi | hi
  · exact hi hk.1
  · exact hi hk.2

theorem asleep_implies_dark_witness :
    setup true (some 2) true =
      some ({ initial with
                display := { buffer := ["Say 'wake up' or 'sleep'"],
                             screen := ["Say 'wake up' or 'sleep'"] } },
            [Event.serialPrintln "Connecting to WiFi...",
             Event.delay 500, Event.serialPrint ".", Event.delay 500, Event.serialPrint ".",
             Event.serialPrintln "WiFi connected",
             Event.serialPrintln "Smart Mirror is ready!"]) ∧
    ((loop (fun _ => "") ⟨100, 2, 3000, none, 0, 3000⟩
        (run (fun _ => "")
          { initial with
              display := { buffer := ["Say 'wake up' or 'sleep'"],
                           screen := ["Say 'wake up' or 'sleep'"] } }
          [⟨100, 1, 500, none, 0, 500⟩]).1).1.mirrorAwake = false →
      ∀ i : Fin 16,
        (loop (fun _ => "") ⟨100, 2, 3000, none, 0, 3000⟩
          (run (fun _ => "")
            { initial with
                display := { buffer := ["Say 'wake up' or 'sleep'"],
                             screen := ["Say 'wake up' or 'sleep'"] } }
            [⟨100, 1, 500, none, 0, 500⟩]).1).1.strip.pixels i = 0 ∧
        (loop (fun _ => "") ⟨100, 2, 3000, none, 0, 3000⟩
          (run (fun _ => "")
            { initial with
                display := { buffer := ["Say 'wake up' or 'sleep'"],
                             screen := ["Say 'wake up' or 'sleep'"] } }
            [⟨100, 1, 500, none, 0, 500⟩]).1).1.strip.shown i = 0) ∧
    (loop (fun _ => "") ⟨100, 2, 3000, none, 0, 3000⟩
        (run (fun _ => "")
          { initial with
              display := { buffer := ["Say 'wake up' or 'sleep'"],
                           screen := ["Say 'wake up' or 'sleep'"] } }
          [⟨100, 1, 500, none, 0, 500⟩]).1).1.mirrorAwake = false :=
  ⟨rfl,
   (asleep_implies_dark (fun _ => "") true (some 2) true _ _ rfl
      [⟨100, 1, 500, none, 0, 500⟩] ⟨100, 2, 3000, none, 0, 3000⟩).2.1,
   rfl⟩

/-! ## The upload interval -/

/-- C9: the interval test is correct across roll-over of the 32-bit counter:
for every `lastUploadTime < 2^32` and every true elapsed time `d < 2^32`, with
`millis()` returning `(lastUploadTime + d) mod 2^32`, the difference computed by
`loop` equals `d` and the test `millis() - lastUploadTime > 60000` holds exactly
when `d > 60000`; so an iteration in which the mirror is awake after the voice
command captures exactly when `d > 60000`. -/
theorem interval_check_wraps (lastUploadTime d : Nat) (hl : lastUploadTime < 2 ^ 32)
    (hd : d < 2 ^ 32) :
    wrapSub ((lastUploadTime + d) % 2 ^ 32) lastUploadTime = d ∧
    (uploadDue ((lastUploadTime + d) % 2 ^ 32) lastUploadTime = true ↔ 60000 < d) ∧
    (∀ (errorToString : Int → String) (inp : LoopInput) (s : Mirror),
      s.lastUploadTime = lastUploadTime →
      millis inp.now = (lastUploadTime + d) % 2 ^ 32 →
      (handleVoiceCommand inp.command (handleLightSensor inp.ldrValue s).1).1.mirrorAwake = true →
      (Event.cameraFbGet ∈ (loop errorToString inp s).2 ↔ 60000 < d)) := by
  have h1 : wrapSub ((lastUploadTime + d) % 2 ^ 32) lastUploadTime = d := by
    have := wrapSub_millis lastUploadTime d hd
    rw [millis_of_lt lastUploadTime hl] at this
    exact this
  have h2 : uploadDue ((lastUploadTime + d) % 2 ^ 32) lastUploadTime = true ↔ 60000 < d := by
    unfold uploadDue
    rw [h1, decide_eq_true_iff]
  refine ⟨h1, h2, fun ets inp s hs hnow ha => ?_⟩
  rw [loop_capture_iff, hs, hnow, h2]
  exact ⟨fun h => h.2, fun h => ⟨ha, h⟩⟩

theorem interval_check_wraps_witness :
    (4294960000 : Nat) < 2 ^ 32 ∧ (70000 : Nat) < 2 ^ 32 ∧
    wrapSub ((4294960000 + 70000) % 2 ^ 32) 4294960000 = 70000 ∧
    (4294960000 + 70000) % 2 ^ 32 = 62704 :=
  ⟨by decide, by decide,
    (interval_check_wraps 4294960000 70000 (by decide) (by decide)).1, by decide⟩

theorem capture_count (errorToString : Int → String) (fb : Option Frame) (code : Int) :
    (captureAndUploadPhoto errorToString fb code).count Event.cameraFbGet = 1 := by
  cases fb with
  | none => simp [captureAndUploadPhoto, List.count_cons]
  | some f =>
    by_cases hc : 0 < code <;> simp [captureAndUploadPhoto, hc, List.count_cons]

theorem handlers_capture_count (inp : LoopInput) (s : Mirror) :
    ((handleLightSensor inp.ldrValue s).2 ++
      (handleVoiceCommand inp.command (handleLightSensor inp.ldrValue s).1).2).count
        Event.cameraFbGet = 0 :=
  List.count_eq_zero.2 (fun h => (handlers_no_capture inp s _ h).1 rfl)

/-- An iteration calls `esp_camera_fb_get` once or not at all. -/
theorem loop_capture_count (errorToString : Int → String) (inp : LoopInput) (s : Mirror) :
    (loop errorToString inp s).2.count Event.cameraFbGet =
      if Event.cameraFbGet ∈ (loop errorToString inp s).2 then 1 else 0 := by
  have h0 := handlers_capture_count inp s
  by_cases hc : Event.cameraFbGet ∈ (loop errorToString inp s).2
  · rw [if_pos hc, loop_eq, if_pos ((loop_capture_iff _ _ _).1 hc)]
    simp only [List.count_append, h0, capture_count]
    simp [List.count_cons]
  · rw [if_neg hc]
    exact List.count_eq_zero.2 hc

/-- The triggers listed by `captureTriggers` are the captures of the run. -/
theorem captureTriggers_length (errorToString : Int → String) :
    ∀ (inputs : List LoopInput) (s : Mirror),
      (captureTriggers errorToString s inputs).length =
        (run errorToString s inputs).2.count Event.cameraFbGet := by
  intro inputs
  induction inputs with
  | nil => intro s; rfl
  | cons inp rest ih =>
    intro s
    unfold captureTriggers run
    dsimp only
    rw [List.length_append, List.count_append, ih, loop_capture_count]
    split <;> rfl

theorem run_no_capture_lastUploadTime (errorToString : Int → String) :
    ∀ (inputs : List LoopInput) (s : Mirror),
      Event.cameraFbGet ∉ (run errorToString s inputs).2 →
      (run errorToString s inputs).1.lastUploadTime = s.lastUploadTime := by
  intro inputs
  induction inputs with
  | nil => intro s _; rfl
  | cons inp rest ih =>
    intro s hno
    have h1 : Event.cameraFbGet ∉ (loop errorToString inp s).2 :=
      fun h => hno (List.mem_append_left _ h)
    have h2 : Event.cameraFbGet ∉ (run errorToString (loop errorToString inp s).1 rest).2 :=
      fun h => hno (List.mem_append_right _ h)
    have hl := loop_lastUploadTime errorToString inp s
    rw [if_neg h1] at hl
    have := ih (loop errorToString inp s).1 h2
    rw [hl] at this
    exact this

/-- C5: a failed capture is logged and not retried. When `esp_camera_fb_get`
returns null, `captureAndUploadPhoto` prints "Camera capture failed" and returns
without any HTTP call; the iteration of `loop` in which this happens makes a
single capture attempt and still sets `lastUploadTime` to the current
`millis()`; so the next capture attempt, after any number of iterations without
one, happens only when more than 60000 ms have elapsed since that reading. -/
theorem capture_failure_not_retried (errorToString : Int → String) (code : Int)
    (inp : LoopInput) (s : Mirror) :
    captureAndUploadPhoto errorToString none code =
      [Event.cameraFbGet, Event.serialPrintln "Camera capture failed"] ∧
    (∀ e ∈ captureAndUploadPhoto errorToString none code, e.isHttp = false) ∧
    (inp.fb = none → Event.cameraFbGet ∈ (loop errorToString inp s).2 →
      Event.serialPrintln "Camera capture failed" ∈ (loop errorToString inp s).2 ∧
      (∀ e ∈ (loop errorToString inp s).2, e.isHttp = false) ∧
      (loop errorToString inp s).2.count Event.cameraFbGet = 1 ∧
      (loop errorToString inp s).1.lastUploadTime = millis inp.after ∧
      ∀ (mid : List LoopInput) (next : LoopInput),
        Event.cameraFbGet ∉ (run errorToString (loop errorToString inp s).1 mid).2 →
        Event.cameraFbGet ∈
          (loop errorToString next (run errorToString (loop errorToString inp s).1 mid).1).2 →
        inp.after ≤ next.now → next.now - inp.after < 2 ^ 32 →
        60000 < next.now - inp.after) := by
  have hnohttp : ∀ e ∈ captureAndUploadPhoto errorToString none code, e.isHttp = false := by
    intro e he
    simp only [captureAndUploadPhoto, List.mem_cons, List.mem_singleton, List.not_mem_nil,
      or_false] at he
    rcases he with rfl | rfl <;> rfl
  refine ⟨rfl, hnohttp, fun hfb hcap => ?_⟩
  have hcond := (loop_capture_iff errorToString inp s).1 hcap
  have hlt := loop_lastUploadTime errorToString inp s
  rw [if_pos hcap] at hlt
  have hcnt := loop_capture_count errorToString inp s
  rw [if_pos hcap] at hcnt
  refine ⟨?_, ?_, hcnt, hlt, fun mid next hmid hnext hle hd => ?_⟩
  · rw [loop_eq, if_pos hcond, hfb]
    exact List.mem_append_left _ (List.mem_append_right _ (by simp [captureAndUploadPhoto]))
  · intro e he
    rw [loop_eq, if_pos hcond, hfb] at he
    rcases List.mem_append.1 he with he | he
    · rcases List.mem_append.1 he with he | he
      · exact (handlers_no_capture inp s e he).2
      · simp only [captureAndUploadPhoto, List.mem_cons, List.mem_singleton,
          List.not_mem_nil, or_false] at he
        rcases he with rfl | rfl <;> rfl
    · rw [List.mem_singleton] at he
      subst he; rfl
  · have hdue := ((loop_capture_iff errorToString next _).1 hnext).2
    rw [run_no_capture_lastUploadTime errorToString mid _ hmid, hlt] at hdue
    unfold uploadDue at hdue
    rw [decide_eq_true_iff] at hdue
    have hw := wrapSub_millis inp.after (next.now - inp.after) hd
    rw [Nat.add_sub_cancel' hle] at hw
    rw [hw] at hdue
    exact hdue

theorem capture_failure_not_retried_witness :
    (⟨100, 1, 70000, none, 0, 70100⟩ : LoopInput).fb = none ∧
    Event.cameraFbGet ∈ (loop (fun _ => "") ⟨100, 1, 70000, none, 0, 70100⟩ initial).2 ∧
    (loop (fun _ => "") ⟨100, 1, 70000, none, 0, 70100⟩ initial).1.lastUploadTime = 70100 ∧
    (loop (fun _ => "") ⟨100, 1, 70000, none, 0, 70100⟩ initial).2.count Event.cameraFbGet = 1 :=
  ⟨rfl, by decide,
    ((capture_failure_not_retried (fun _ => "") 0 ⟨100, 1, 70000, none, 0, 70100⟩ initial).2.2
      rfl (by decide)).2.2.2.1,
    ((capture_failure_not_retried (fun _ => "") 0 ⟨100, 1, 70000, none, 0, 70100⟩ initial).2.2
      rfl (by decide)).2.2.1⟩

/-! ## At most one upload per minute -/

theorem chain_of_le {R : Nat → Nat → Prop} {a b : Nat} {l : List Nat}
    (hR : ∀ c, R a c → R b c) (h : List.Chain R a l) : List.Chain R b l := by
  cases h with
  | nil => exact List.Chain.nil
  | cons h1 h2 => exact List.Chain.cons (hR _ h1) h2

theorem captureTriggers_chain (errorToString : Int → String) :
    ∀ (inputs : List LoopInput) (s : Mirror),
      List.Chain (fun a b => a ≤ b) s.lastUploadTime (clockReadings inputs) →
      (∀ t ∈ clockReadings inputs, t < 2 ^ 32) →
      List.Chain (fun t1 t2 => t1 < t2 ∧ 60000 < t2 - t1) s.lastUploadTime
        (captureTriggers errorToString s inputs) := by
  intro inputs
  induction inputs with
  | nil => intro s _ _; exact List.Chain.nil
  | cons inp rest ih =>
    intro s hmono hroll
    have hnow : inp.now < 2 ^ 32 := hroll _ (List.mem_cons_self _ _)
    have hafter : inp.after < 2 ^ 32 :=
      hroll _ (List.mem_cons_of_mem _ (List.mem_cons_self _ _))
    have hrest : ∀ t ∈ clockReadings rest, t < 2 ^ 32 :=
      fun t ht => hroll t (List.mem_cons_of_mem _ (List.mem_cons_of_mem _ ht))
    unfold clockReadings at hmono
    rw [List.chain_cons, List.chain_cons] at hmono
    obtain ⟨h1, h2, h3⟩ := hmono
    have hl := loop_lastUploadTime errorToString inp s
    unfold captureTriggers
    dsimp only
    by_cases hc : Event.cameraFbGet ∈ (loop errorToString inp s).2
    · rw [if_pos hc] at hl ⊢
      rw [millis_of_lt _ hafter] at hl
      have hdue := ((loop_capture_iff errorToString inp s).1 hc).2
      unfold uploadDue at hdue
      rw [decide_eq_true_iff] at hdue
      have hw := wrapSub_millis s.lastUploadTime (inp.now - s.lastUploadTime)
        (by omega)
      rw [Nat.add_sub_cancel' h1] at hw
      have hs : s.lastUploadTime < 2 ^ 32 := by omega
      rw [millis_of_lt _ hs] at hw
      rw [hw] at hdue
      have ihr := ih (loop errorToString inp s).1 (by rw [hl]; exact h3) hrest
      rw [hl] at ihr
      refine List.Chain.cons ⟨by omega, hdue⟩ (chain_of_le (fun c hcR => ?_) ihr)
      exact ⟨by omega, by omega⟩
    · rw [if_neg hc] at hl ⊢
      have ihr := ih (loop errorToString inp s).1
        (by rw [hl]; exact chain_of_le (fun c hcR => by omega) h3) hrest
      rw [hl] at ihr
      exact ihr

/-- C3: photos are uploaded at most once per minute. For every run of `loop`
whose clock readings are non-decreasing, start at or after `lastUploadTime`,
and stay below `2^32` (no roll-over), any two successive invocations of
`captureAndUploadPhoto` are triggered at readings `t1 < t2` with
`t2 - t1 > 60000`, and every trigger is more than 60000 ms after the
`lastUploadTime` the run starts with. The listed triggers are exactly the
captures of the run, and an iteration that captures leaves `lastUploadTime` at
the reading taken after the upload returned. -/
theorem uploads_spaced (errorToString : Int → String) (s : Mirror)
    (inputs : List LoopInput)
    (hmono : List.Chain (fun a b => a ≤ b) s.lastUploadTime (clockReadings inputs))
    (hroll : ∀ t ∈ clockReadings inputs, t < 2 ^ 32) :
    List.Chain' (fun t1 t2 => t1 < t2 ∧ 60000 < t2 - t1)
      (captureTriggers errorToString s inputs) ∧
    (∀ t ∈ captureTriggers errorToString s inputs, 60000 < t - s.lastUploadTime) ∧
    (captureTriggers errorToString s inputs).length =
      (run errorToString s inputs).2.count Event.cameraFbGet ∧
    (∀ (inp : LoopInput) (s1 : Mirror), Event.cameraFbGet ∈ (loop errorToString inp s1).2 →
      (loop errorToString inp s1).1.lastUploadTime = millis inp.after) := by
  have hch := captureTriggers_chain errorToString inputs s hmono hroll
  refine ⟨?_, ?_, captureTriggers_length errorToString inputs s, fun inp s1 hc => ?_⟩
  · have h' : List.Chain' (fun t1 t2 => t1 < t2 ∧ 60000 < t2 - t1)
        (s.lastUploadTime :: captureTriggers errorToString s inputs) := hch
    exact h'.tail
  · have htrans : ∀ (l : List Nat) (a : Nat),
        List.Chain (fun t1 t2 => t1 < t2 ∧ 60000 < t2 - t1) a l →
        ∀ t ∈ l, 60000 < t - a := by
      intro l
      induction l with
      | nil => intro a _ t ht; exact absurd ht (List.not_mem_nil _)
      | cons b l ih =>
        intro a h t ht
        rw [List.chain_cons] at h
        rcases List.mem_cons.1 ht with rfl | ht
        · exact h.1.2
        · have := ih b h.2 t ht
          omega
    exact htrans _ _ hch
  · have hl := loop_lastUploadTime errorToString inp s1
    rw [if_pos hc] at hl
    exact hl

theorem uploads_spaced_witness :
    List.Chain (fun a b => a ≤ b) initial.lastUploadTime
      (clockReadings [⟨100, 1, 70000, some ⟨[255, 216], 2⟩, 200, 70500⟩,
        ⟨100, 0, 100000, none, 0, 100000⟩,
        ⟨100, 0, 130500, none, 0, 130500⟩,
        ⟨100, 0, 130501, some ⟨[255, 216], 2⟩, -1, 131000⟩]) ∧
    (∀ t ∈ clockReadings [⟨100, 1, 70000, some ⟨[255, 216], 2⟩, 200, 70500⟩,
        ⟨100, 0, 100000, none, 0, 100000⟩,
        ⟨100, 0, 130500, none, 0, 130500⟩,
        ⟨100, 0, 130501, some ⟨[255, 216], 2⟩, -1, 131000⟩], t < 2 ^ 32) ∧
    captureTriggers (fun _ => "") initial
      [⟨100, 1, 70000, some ⟨[255, 216], 2⟩, 200, 70500⟩,
        ⟨100, 0, 100000, none, 0, 100000⟩,
        ⟨100, 0, 130500, none, 0, 130500⟩,
        ⟨100, 0, 130501, some ⟨[255, 216], 2⟩, -1, 131000⟩] = [70000, 130501] ∧
    List.Chain' (fun t1 t2 => t1 < t2 ∧ 60000 < t2 - t1)
      (captureTriggers (fun _ => "") initial
        [⟨100, 1, 70000, some ⟨[255, 216], 2⟩, 200, 70500⟩,
         ⟨100, 0, 100000, none, 0, 100000⟩,
         ⟨100, 0, 130500, none, 0, 130500⟩,
         ⟨100, 0, 130501, some ⟨[255, 216], 2⟩, -1, 131000⟩]) :=
  ⟨by simp [clockReadings, initial], by decide, by decide,
    (uploads_spaced (fun _ => "") initial
      [⟨100, 1, 70000, some ⟨[255, 216], 2⟩, 200, 70500⟩,
       ⟨100, 0, 100000, none, 0, 100000⟩,
       ⟨100, 0, 130500, none, 0, 130500⟩,
       ⟨100, 0, 130501, some ⟨[255, 216], 2⟩, -1, 131000⟩]
      (by simp [clockReadings, initial]) (by decide)).1⟩

end SmartMirror
